import Mathlib

/-!
Verification of the environment-wallet hook (src/src/hooks/useEnvWallet.ts).

The hook keeps a single shared record (EnvWalletState) and mutates it only
through functional updates of the form setWalletState (prev => ...). Each
such update is embedded below as a pure commit function on the state
record. Asynchronous completions (balance queries, scheduled retries) are
modelled as separate commit steps that may run against any later state,
and an operation type Op ranges over every commit the hook can perform so
that reachability facts can be stated as fold invariants. External
collaborators (ethers providers and wallets, the RPC endpoints, the Vite
environment) are modelled as oracles or deterministic stand-ins: the
claims under check never depend on the actual bytes they return.
-/

namespace EnvWallet

/-- One entry of the multi-network balance mapping: the formatted balance
string together with the native currency symbol of the network (the value
stored under balances[network.name], source lines 112-123). -/
structure BalanceEntry where
  balance : String
  currency : String
deriving DecidableEq

/-- Model of an ethers.JsonRpcProvider: the only datum the hook feeds into
its constructor is the RPC URL it is opened on. -/
structure Provider where
  rpcUrl : String
deriving DecidableEq

/-- Address derivation performed by the external ethers.Wallet
constructor, modelled as a deterministic injective function of the private
key. -/
def deriveAddr (key : String) : String := "addr:" ++ key

/-- Model of an ethers.Wallet: the private key it was built from and the
address derived from that key. -/
structure Wallet where
  privateKey : String
  address : String
deriving DecidableEq

/-- Building a wallet from a private key (ethers.Wallet constructor on the
success path; the throwing path is modelled separately). -/
def mkWallet (key : String) : Wallet := ⟨key, deriveAddr key⟩

/-- The EnvWalletState record of the hook (source lines 4-17), with the
ethers objects replaced by their models. -/
structure WState where
  userWallet : Option Wallet
  relayerWallet : Option Wallet
  provider : Option Provider
  isConfigured : Bool
  userAddress : Option String
  relayerAddress : Option String
  userBalance : Option String
  relayerBalance : Option String
  multiNetworkBalances : Option (List (String × BalanceEntry))
  chainId : Option Nat
  error : Option String
  currentUserPrivateKey : Option String
deriving DecidableEq

/-- The initial state passed to useState (source lines 20-33). -/
def initialState : WState :=
  { userWallet := none, relayerWallet := none, provider := none,
    isConfigured := false, userAddress := none, relayerAddress := none,
    userBalance := none, relayerBalance := none,
    multiNetworkBalances := none, chainId := none, error := none,
    currentUserPrivateKey := none }

/-- The JS test key.trim() === Empty (combined with !key): the string is
empty or consists of whitespace only. -/
def isBlank (s : String) : Bool := s.data.all Char.isWhitespace

/-- One character of the regex class [0-9a-fA-F] (source line 102). -/
def isHexDigitChar (c : Char) : Bool :=
  (decide ('0' ≤ c) && decide (c ≤ '9'))
    || (decide ('a' ≤ c) && decide (c ≤ 'f'))
    || (decide ('A' ≤ c) && decide (c ≤ 'F'))

/-- The JS expression key.startsWith (with argument 0x) followed by
key.slice(2), on the character list (source line 101). -/
def cleanKeyChars (l : List Char) : List Char :=
  if l.take 2 = ['0', 'x'] then l.drop 2 else l

/-- The regex test of source line 102 on the cleaned characters: exactly
64 hexadecimal characters. -/
def validKeyChars (l : List Char) : Bool :=
  (cleanKeyChars l).length == 64 && (cleanKeyChars l).all isHexDigitChar

/-- The private key format test of source lines 100-102: strip an
optional 0x prefix, then require the regex to match. -/
def isValidKeyFormat (s : String) : Bool := validKeyChars s.data

/-- Spec wording for C6: a list of exactly 64 hexadecimal characters. -/
def is64Hex (l : List Char) : Prop :=
  l.length = 64 ∧ ∀ c ∈ l, isHexDigitChar c = true

/-- Spec wording for C6 (refinement side): the accepted strings are
exactly the 64-hex-digit strings, with or without the literal 0x prefix. -/
def specAcceptsKey (s : String) : Prop :=
  is64Hex s.data ∨ ∃ t : List Char, s.data = '0' :: 'x' :: t ∧ is64Hex t

lemma validKeyChars_iff (l : List Char) :
    validKeyChars l = true ↔
      (is64Hex l ∨ ∃ t : List Char, l = '0' :: 'x' :: t ∧ is64Hex t) := by
  by_cases hpre : l.take 2 = ['0', 'x']
  · obtain ⟨t, rfl⟩ : ∃ t, l = '0' :: 'x' :: t := by
      match l, hpre with
      | a :: b :: t, hpre =>
        simp [List.take] at hpre
        exact ⟨t, by rw [hpre.1, hpre.2]⟩
    have hclean : cleanKeyChars ('0' :: 'x' :: t) = t := by
      simp [cleanKeyChars]
    constructor
    · intro h
      unfold validKeyChars at h
      rw [hclean, Bool.and_eq_true, beq_iff_eq, List.all_eq_true] at h
      exact Or.inr ⟨t, rfl, h.1, h.2⟩
    · intro h
      rcases h with h | ⟨t2, ht2, hlen, hall⟩
      · exfalso
        have hx : isHexDigitChar 'x' = true :=
          h.2 'x' (by simp)
        simp [isHexDigitChar] at hx
      · have : t2 = t := by
          injection ht2 with _ h2
          injection h2 with _ h3
          exact h3.symm
        subst this
        unfold validKeyChars
        rw [hclean, Bool.and_eq_true, beq_iff_eq, List.all_eq_true]
        exact ⟨hlen, hall⟩
  · have hclean : cleanKeyChars l = l := by
      simp [cleanKeyChars, hpre]
    constructor
    · intro h
      unfold validKeyChars at h
      rw [hclean, Bool.and_eq_true, beq_iff_eq, List.all_eq_true] at h
      exact Or.inl ⟨h.1, h.2⟩
    · intro h
      rcases h with h | ⟨t2, ht2, _⟩
      · unfold validKeyChars
        rw [hclean, Bool.and_eq_true, beq_iff_eq, List.all_eq_true]
        exact ⟨h.1, h.2⟩
      · exfalso
        exact hpre (by rw [ht2]; simp [List.take])

/-- C6: the credential format check accepts exactly the strings that are
64 hexadecimal characters after stripping the optional 0x prefix; in
particular the empty string, both placeholder values and malformed hex
are rejected, and a 64-hex-digit string with or without the prefix is
accepted. -/
theorem c6_keyFormat :
    (∀ s : String, isValidKeyFormat s = true ↔ specAcceptsKey s)
    ∧ isValidKeyFormat "" = false
    ∧ isValidKeyFormat "0x..." = false
    ∧ isValidKeyFormat "0x" = false
    ∧ isValidKeyFormat
        "aaaaaaaaaaaaaaaaaaaaaaaaaaaaaaaaaaaaaaaaaaaaaaaaaaaaaaaaaaaaaaaa" = true
    ∧ isValidKeyFormat
        "0xaaaaaaaaaaaaaaaaaaaaaaaaaaaaaaaaaaaaaaaaaaaaaaaaaaaaaaaaaaaaaaaa" = true := by
  refine ⟨fun s => ?_, by decide, by decide, by decide, by decide, by decide⟩
  exact validKeyChars_iff s.data

/-- One entry of the NETWORKS catalog (source lines 36-86). -/
structure Network where
  id : Nat
  name : String
  rpcUrl : String
  currency : String
  relayerKey : Option String
deriving DecidableEq

/-- The JS expression a || b for a possibly undefined environment string
with a literal fallback (undefined and the empty string are falsy). -/
def jsOrStr (v : Option String) (fallback : String) : String :=
  match v with
  | none => fallback
  | some s => if s == "" then fallback else s

/-- The JS expression a || b between two possibly undefined environment
strings. -/
def jsOrKey (v w : Option String) : Option String :=
  match v with
  | none => w
  | some s => if s == "" then w else some s

/-- The NETWORKS catalog (source lines 36-86), parameterized by the
environment lookup import.meta.env. -/
def NETWORKS (env : String → Option String) : List Network :=
  [ { id := 56, name := "BSC",
      rpcUrl := jsOrStr (env "VITE_RPC_URL") "https://bsc-dataseed1.binance.org",
      currency := "BNB",
      relayerKey := env "VITE_RELAYER_PRIVATE_KEY" },
    { id := 1, name := "Ethereum",
      rpcUrl := jsOrStr (env "VITE_ETHEREUM_RPC_URL") "https://eth.llamarpc.com",
      currency := "ETH",
      relayerKey := jsOrKey (env "VITE_ETHEREUM_RELAYER_PRIVATE_KEY")
        (env "VITE_RELAYER_PRIVATE_KEY") },
    { id := 11155111, name := "Sepolia",
      rpcUrl := jsOrStr (env "VITE_SEPOLIA_RPC_URL")
        "https://sepolia.infura.io/v3/9aa3d95b3bc440fa88ea12eaa4456161",
      currency := "ETH",
      relayerKey := jsOrKey (env "VITE_SEPOLIA_RELAYER_PRIVATE_KEY")
        (env "VITE_RELAYER_PRIVATE_KEY") },
    { id := 42161, name := "Arbitrum",
      rpcUrl := jsOrStr (env "VITE_ARBITRUM_RPC_URL") "https://arb1.arbitrum.io/rpc",
      currency := "ETH",
      relayerKey := jsOrKey (env "VITE_ARBITRUM_RELAYER_PRIVATE_KEY")
        (env "VITE_RELAYER_PRIVATE_KEY") },
    { id := 8453, name := "Base",
      rpcUrl := jsOrStr (env "VITE_BASE_RPC_URL") "https://mainnet.base.org",
      currency := "ETH",
      relayerKey := jsOrKey (env "VITE_BASE_RELAYER_PRIVATE_KEY")
        (env "VITE_RELAYER_PRIVATE_KEY") },
    { id := 137, name := "Polygon",
      rpcUrl := jsOrStr (env "VITE_POLYGON_RPC_URL") "https://polygon-rpc.com",
      currency := "MATIC",
      relayerKey := jsOrKey (env "VITE_POLYGON_RELAYER_PRIVATE_KEY")
        (env "VITE_RELAYER_PRIVATE_KEY") },
    { id := 10, name := "Optimism",
      rpcUrl := jsOrStr (env "VITE_OPTIMISM_RPC_URL") "https://mainnet.optimism.io",
      currency := "ETH",
      relayerKey := jsOrKey (env "VITE_OPTIMISM_RELAYER_PRIVATE_KEY")
        (env "VITE_RELAYER_PRIVATE_KEY") } ]

/-- The two skip tests of source lines 95-105: missing, blank or
placeholder credential, then the key format validation. Both tests run
before any provider is opened or any query issued. -/
def skipNetwork (n : Network) : Bool :=
  match n.relayerKey with
  | none => true
  | some k => isBlank k || k == "0x..." || k == "0x" || !(isValidKeyFormat k)

/-- One iteration of the NETWORKS.map fan-out (source lines 94-125): a
skipped network returns without consulting the balance oracle q (no
connection, no query, no entry); otherwise the try block records the
fetched balance, and its catch records the fallback entry 0.0000 with
the network currency. Each promise settles on its own, so q is consulted
for one network only through that network. -/
def runNetwork (q : Network → Except String String) (n : Network) :
    Option (String × BalanceEntry) :=
  if skipNetwork n then none
  else
    match q n with
    | Except.ok b => some (n.name, { balance := b, currency := n.currency })
    | Except.error _ => some (n.name, { balance := "0.0000", currency := n.currency })

/-- The whole fetch batch (source lines 94-127): Promise.all over the
per-network promises, none of which can reject because every failure is
handled inside its own iteration; the resulting mapping holds exactly
the entries of the non-skipped networks. -/
def fetchMultiNetworkBalances (q : Network → Except String String)
    (nets : List Network) : List (String × BalanceEntry) :=
  nets.filterMap (runNetwork q)

/-- The state commit at source lines 129-132: the new mapping fully
replaces the previous multiNetworkBalances. -/
def fetchAllCommit (bs : List (String × BalanceEntry)) (s : WState) : WState :=
  { s with multiNetworkBalances := some bs }

lemma runNetwork_name {q : Network → Except String String} {m : Network}
    {x : String} {e : BalanceEntry} (h : runNetwork q m = some (x, e)) :
    x = m.name := by
  unfold runNetwork at h
  by_cases hs : skipNetwork m
  · simp [hs] at h
  · simp [hs] at h
    cases hq : q m with
    | ok b =>
        rw [hq] at h
        simp at h
        exact h.1.symm
    | error msg =>
        rw [hq] at h
        simp at h
        exact h.1.symm

lemma network_names (env : String → Option String) :
    (NETWORKS env).map Network.name =
      ["BSC", "Ethereum", "Sepolia", "Arbitrum", "Base", "Polygon", "Optimism"] := rfl

lemma network_eq_of_name_eq {env : String → Option String} {m n : Network}
    (hm : m ∈ NETWORKS env) (hn : n ∈ NETWORKS env) (h : m.name = n.name) :
    m = n := by
  have hm2 := hm
  have hn2 := hn
  simp [NETWORKS] at hm2 hn2
  rcases hm2 with rfl | rfl | rfl | rfl | rfl | rfl | rfl <;>
    rcases hn2 with rfl | rfl | rfl | rfl | rfl | rfl | rfl <;>
      first
        | rfl
        | (exfalso; simp at h)

/-- C5: a catalog network whose credential is absent, blank, one of the
placeholders 0x... and 0x, or rejected by the 64-hex format check is
skipped: its iteration never consults the balance oracle (so no
connection is opened and no query issued — the outcome is the same for
every oracle) and the result mapping contains no entry under its name. -/
theorem c5_skip (env : String → Option String)
    (q : Network → Except String String) (n : Network)
    (hn : n ∈ NETWORKS env) (hskip : skipNetwork n = true) :
    (∀ q2 : Network → Except String String, runNetwork q2 n = none)
    ∧ ∀ e : BalanceEntry,
        (n.name, e) ∉ fetchMultiNetworkBalances q (NETWORKS env) := by
  constructor
  · intro q2
    unfold runNetwork
    simp [hskip]
  · intro e hmem
    unfold fetchMultiNetworkBalances at hmem
    rw [List.mem_filterMap] at hmem
    obtain ⟨m, hm, hrun⟩ := hmem
    have hname : n.name = m.name := runNetwork_name hrun
    have : m = n := network_eq_of_name_eq hm hn hname.symm
    subst this
    rw [show runNetwork q m = none by unfold runNetwork; simp [hskip]] at hrun
    exact Option.noConfusion hrun

/-- Environment for the C5 witness: no credential is configured at all,
so every catalog network is skipped. -/
def envNone : String → Option String := fun _ => none

/-- The BSC descriptor under envNone. -/
def bscNone : Network := (NETWORKS envNone).get ⟨0, by decide⟩

theorem c5_skip_witness :
    (bscNone ∈ NETWORKS envNone ∧ skipNetwork bscNone = true)
    ∧ ∀ e : BalanceEntry,
        (bscNone.name, e) ∉
          fetchMultiNetworkBalances (fun _ => Except.ok "1.0") (NETWORKS envNone) :=
  ⟨⟨by decide, by decide⟩,
    (c5_skip envNone (fun _ => Except.ok "1.0") bscNone (by decide) (by decide)).2⟩

/-- C3: when the balance query of a non-skipped catalog network fails,
that iteration catches the error and records the fallback entry 0.0000
with the network currency; the batch still completes, every other
non-skipped network still contributes its own entry, and the outcome of
any other network is independent of the failure because each iteration
consults the oracle only through its own network. -/
theorem c3_fallback (env : String → Option String)
    (q : Network → Except String String) (n : Network) (e : String)
    (hn : n ∈ NETWORKS env) (hskip : skipNetwork n = false)
    (hq : q n = Except.error e) :
    (n.name, { balance := "0.0000", currency := n.currency }) ∈
        fetchMultiNetworkBalances q (NETWORKS env)
    ∧ (∀ m ∈ NETWORKS env, skipNetwork m = false →
        ∃ b : String, (m.name, { balance := b, currency := m.currency }) ∈
          fetchMultiNetworkBalances q (NETWORKS env))
    ∧ (∀ q2 : Network → Except String String,
        (∀ m : Network, m ≠ n → q2 m = q m) →
        ∀ m : Network, m ≠ n → runNetwork q2 m = runNetwork q m) := by
  refine ⟨?_, ?_, ?_⟩
  · unfold fetchMultiNetworkBalances
    rw [List.mem_filterMap]
    refine ⟨n, hn, ?_⟩
    unfold runNetwork
    simp [hskip, hq]
  · intro m hm hmskip
    unfold fetchMultiNetworkBalances
    cases hqm : q m with
    | ok b =>
        exact ⟨b, List.mem_filterMap.mpr
          ⟨m, hm, by unfold runNetwork; simp [hmskip, hqm]⟩⟩
    | error msg =>
        exact ⟨"0.0000", List.mem_filterMap.mpr
          ⟨m, hm, by unfold runNetwork; simp [hmskip, hqm]⟩⟩
  · intro q2 hq2 m hmn
    unfold runNetwork
    rw [hq2 m hmn]

/-- Environment for the C3 witness: one shared valid 64-hex credential
for every network. -/
def envHex : String → Option String :=
  fun _ => some "aaaaaaaaaaaaaaaaaaaaaaaaaaaaaaaaaaaaaaaaaaaaaaaaaaaaaaaaaaaaaaaa"

/-- The BSC descriptor under envHex. -/
def bscHex : Network := (NETWORKS envHex).get ⟨0, by decide⟩

/-- Balance oracle for the C3 witness: the BSC query fails, every other
query succeeds. -/
def qBscDown : Network → Except String String :=
  fun m => if m.name == "BSC" then Except.error "down" else Except.ok "1.0"

theorem c3_fallback_witness :
    (bscHex ∈ NETWORKS envHex ∧ skipNetwork bscHex = false
      ∧ qBscDown bscHex = Except.error "down")
    ∧ (bscHex.name, { balance := "0.0000", currency := bscHex.currency }) ∈
        fetchMultiNetworkBalances qBscDown (NETWORKS envHex) :=
  ⟨⟨by decide, by decide, rfl⟩,
    (c3_fallback envHex qBscDown bscHex "down"
      (by decide) (by decide) rfl).1⟩

/-- The fixed error message of the missing-configuration branch
(source line 162). -/
def configErrorMsg : String :=
  "Please configure VITE_RELAYER_PRIVATE_KEY and VITE_RPC_URL in .env file"

/-- The success commit of the provider setup (source lines 181-189):
relayer wallet, provider, relayer address and balance, chain id, and a
cleared error, everything else spread from prev. -/
def initSuccessCommit (key url : String) (cid : Nat) (bal : String)
    (s : WState) : WState :=
  { s with relayerWallet := some (mkWallet key),
           provider := some { rpcUrl := url },
           relayerAddress := some (mkWallet key).address,
           relayerBalance := some bal,
           chainId := some cid,
           error := none }

/-- The provider setup routine (source lines 143-198). A missing or
empty RPC URL or relayer credential records the fixed configuration
message and changes nothing else; a throwing connection, derivation or
query is caught and records only its message; success commits the
relayer fields atomically. The result oracle stands for the external
getNetwork and getBalance calls. -/
def initProvider (cfgKey cfgUrl : Option String)
    (result : Except String (Nat × String)) (s : WState) : WState :=
  if jsOrStr cfgKey "" == "" || jsOrStr cfgUrl "" == "" then
    { s with error := some configErrorMsg }
  else
    match result with
    | Except.error msg => { s with error := some msg }
    | Except.ok (cid, bal) =>
        initSuccessCommit (jsOrStr cfgKey "") (jsOrStr cfgUrl "") cid bal s

/-- The empty-key branch of updateUserPrivateKey (source lines 204-215):
credential, user wallet, address, balance and isConfigured cleared in
one commit, with no condition on the provider. -/
def clearUserCommit (s : WState) : WState :=
  { s with currentUserPrivateKey := some "",
           userWallet := none, userAddress := none, userBalance := none,
           isConfigured := false }

/-- The synchronous commit of the non-empty-key branch once the provider
exists (source lines 233-240): installs the wallet and address, sets
isConfigured from the prev relayer wallet, prev provider and the new
key, clears the error, and touches no other field — in particular
userBalance keeps its previous value. -/
def setUserKeyCommit (key : String) (s : WState) : WState :=
  { s with currentUserPrivateKey := some key,
           userWallet := some (mkWallet key),
           userAddress := some (mkWallet key).address,
           isConfigured := s.relayerWallet.isSome && s.provider.isSome
             && !(key == ""),
           error := none }

/-- updateUserPrivateKey (source lines 200-269) as one state step that
also returns the retry it schedules: a blank key clears the user fields
unconditionally; with no provider the prev state is returned unchanged
and the very same call is rescheduled after the fixed 100 ms delay
(source line 223); with a provider the new wallet is committed
synchronously, while the balance query is issued separately and commits
later through userBalanceCommit. -/
def updateUserPrivateKeyStep (key : String) (s : WState) :
    WState × Option (Nat × String) :=
  if isBlank key then (clearUserCommit s, none)
  else
    match s.provider with
    | none => (s, some (100, key))
    | some _ => (setUserKeyCommit key s, none)

/-- The committed state of updateUserPrivateKey, retry schedule dropped. -/
def updateUserPrivateKey (key : String) (s : WState) : WState :=
  (updateUserPrivateKeyStep key s).1

/-- The commit of the asynchronous user balance query issued by
updateUserPrivateKey (source lines 246-249): it merges the balance into
whatever the current state is at completion time, with no guard on the
current userWallet. -/
def userBalanceCommit (b : String) (s : WState) : WState :=
  { s with userBalance := some b }

/-- The catch branch of updateUserPrivateKey (source lines 260-267),
reachable only for a non-blank key whose wallet derivation throws: the
credential is remembered, the user fields are cleared, the message is
recorded — and isConfigured is not touched. -/
def userKeyErrCommit (key msg : String) (s : WState) : WState :=
  { s with currentUserPrivateKey := some key,
           userWallet := none, userAddress := none, userBalance := none,
           error := some msg }

/-- Promise.all over the per-role balance queries issued by
refreshBalances (source lines 279-295): queries are issued only for the
wallets present at call time; the join resolves with the tagged results
only if every issued query succeeds, and rejects — so that nothing is
committed — as soon as any issued query fails. -/
def refreshResolve (wantUser wantRelayer : Bool)
    (qU qR : Except String String) :
    Option (Option String × Option String) :=
  match wantUser, wantRelayer with
  | false, false => some (none, none)
  | true, false =>
      match qU with
      | Except.ok b => some (some b, none)
      | Except.error _ => none
  | false, true =>
      match qR with
      | Except.ok b => some (none, some b)
      | Except.error _ => none
  | true, true =>
      match qU, qR with
      | Except.ok bu, Except.ok br => some (some bu, some br)
      | _, _ => none

/-- The merge commit of refreshBalances (source lines 296-306): each
tagged result updates only the balance field of its own role, merged
into the current state at completion time. -/
def applyRefreshCommit (upd : Option String × Option String)
    (c : WState) : WState :=
  { c with
      userBalance := match upd.1 with
        | some b => some b
        | none => c.userBalance,
      relayerBalance := match upd.2 with
        | some b => some b
        | none => c.relayerBalance }

/-- refreshBalances (source lines 271-317) from call to join: sAtCall is
the state read when the queries are issued, current the state when the
join completes. With no provider, or when any issued query fails,
nothing is committed. -/
def refreshBalancesRun (qU qR : Except String String)
    (sAtCall current : WState) : WState :=
  match sAtCall.provider with
  | none => current
  | some _ =>
      match refreshResolve sAtCall.userWallet.isSome
          sAtCall.relayerWallet.isSome qU qR with
      | none => current
      | some upd => applyRefreshCommit upd current

/-- Every atomic commit the hook can perform, used to range over all
operations for the reachability invariants: the startup or reinitialize
routine with its configuration and RPC outcome, the multi-network fetch
commit, the dispatch of updateUserPrivateKey, its catch branch, the
asynchronous user balance merge, and the refresh merge commit. -/
inductive Op where
  | initRun (cfgKey cfgUrl : Option String)
      (result : Except String (Nat × String))
  | fetchAllDone (bs : List (String × BalanceEntry))
  | updateUserKey (key : String)
  | updateUserKeyErr (key msg : String)
  | userBalResolved (bal : String)
  | refreshMerge (upd : Option String × Option String)

/-- Side condition under which a commit is reachable in the source: the
derivation-error branch runs only for a non-blank key (the blank case
returned earlier). -/
def validOp : Op → Bool
  | Op.updateUserKeyErr key _ => !(isBlank key)
  | _ => true

def applyOp : Op → WState → WState
  | Op.initRun cfgKey cfgUrl result, s => initProvider cfgKey cfgUrl result s
  | Op.fetchAllDone bs, s => fetchAllCommit bs s
  | Op.updateUserKey key, s => updateUserPrivateKey key s
  | Op.updateUserKeyErr key msg, s => userKeyErrCommit key msg s
  | Op.userBalResolved b, s => userBalanceCommit b s
  | Op.refreshMerge upd, s => applyRefreshCommit upd s

def applyOps (ops : List Op) (s : WState) : WState :=
  ops.foldl (fun st o => applyOp o st) s

/-- The credential field holds a non-empty string. -/
def credNonEmpty (s : WState) : Bool :=
  match s.currentUserPrivateKey with
  | some k => !(k == "")
  | none => false

/-- The three preconditions of isConfigured named by the spec: relayer
account present, connection present, non-empty current credential. -/
def configuredPre (s : WState) : Bool :=
  s.relayerWallet.isSome && s.provider.isSome && credNonEmpty s

/-- The iff claimed by C1 between isConfigured and its preconditions. -/
def configuredIff (s : WState) : Prop := s.isConfigured = configuredPre s

/-- The forward half of C1: isConfigured is never true while one of its
three preconditions is false. -/
def configuredSound (s : WState) : Bool :=
  !s.isConfigured || configuredPre s

lemma configuredSound_step (o : Op) (s : WState) (hv : validOp o = true)
    (hs : configuredSound s = true) : configuredSound (applyOp o s) = true := by
  cases o with
  | fetchAllDone bs => exact hs
  | userBalResolved b => exact hs
  | refreshMerge upd => exact hs
  | updateUserKeyErr key msg =>
      have hk : (key == "") = false := by
        cases hkk : (key == "") with
        | false => rfl
        | true =>
            have : key = "" := beq_iff_eq.mp hkk
            subst this
            have hfalse : validOp (Op.updateUserKeyErr "" msg) = false := rfl
            rw [hfalse] at hv
            exact Bool.noConfusion hv
      have hs2 : (!s.isConfigured
          || (s.relayerWallet.isSome && s.provider.isSome && credNonEmpty s))
            = true := hs
      show (!s.isConfigured
        || (s.relayerWallet.isSome && s.provider.isSome && !(key == ""))) = true
      rw [hk]
      cases hconf : s.isConfigured with
      | false => rfl
      | true =>
          rw [hconf] at hs2
          simp only [Bool.not_true, Bool.false_or, Bool.and_eq_true] at hs2
          simp [hs2.1.1, hs2.1.2]
  | updateUserKey key =>
      show configuredSound (updateUserPrivateKey key s) = true
      unfold updateUserPrivateKey updateUserPrivateKeyStep
      by_cases hb : isBlank key = true
      · rw [if_pos hb]
        rfl
      · rw [if_neg hb]
        cases hp : s.provider with
        | none => exact hs
        | some p =>
            show (!(s.relayerWallet.isSome && s.provider.isSome && !(key == ""))
              || (s.relayerWallet.isSome && s.provider.isSome && !(key == "")))
                = true
            cases hX : (s.relayerWallet.isSome && s.provider.isSome
              && !(key == "")) <;> rfl
  | initRun cfgKey cfgUrl result =>
      show configuredSound (initProvider cfgKey cfgUrl result s) = true
      unfold initProvider
      by_cases hc : (jsOrStr cfgKey "" == "" || jsOrStr cfgUrl "" == "") = true
      · rw [if_pos hc]
        exact hs
      · rw [if_neg hc]
        cases result with
        | error msg => exact hs
        | ok pr =>
            obtain ⟨cid, bal⟩ := pr
            have hs2 : (!s.isConfigured
                || (s.relayerWallet.isSome && s.provider.isSome && credNonEmpty s))
                  = true := hs
            show (!s.isConfigured || (true && true && credNonEmpty s)) = true
            cases hconf : s.isConfigured with
            | false => rfl
            | true =>
                rw [hconf] at hs2
                simp only [Bool.not_true, Bool.false_or, Bool.and_eq_true] at hs2
                simp [hs2.2]

lemma configuredSound_run (ops : List Op) (s : WState)
    (hv : ops.all validOp = true) (hs : configuredSound s = true) :
    configuredSound (applyOps ops s) = true := by
  induction ops generalizing s with
  | nil => exact hs
  | cons o rest ih =>
      rw [List.all_cons, Bool.and_eq_true] at hv
      exact ih (applyOp o s) hv.2 (configuredSound_step o s hv.1 hs)

/-- The operation sequence refuting the C1 iff: a successful startup
followed by a setUserCredential call with a non-blank key whose
derivation throws (its catch commits the credential without recomputing
isConfigured). -/
def c1ops : List Op :=
  [Op.initRun (some "relayerkey") (some "rpcurl") (Except.ok (56, "1.0")),
   Op.updateUserKeyErr "badkey" "invalid private key"]

/-- C1 counterexample: after a successful initialize and a non-empty
setUserCredential whose account derivation fails, the committed state
has the relayer wallet, the provider and a non-empty credential all
present while isConfigured is still false, so the claimed iff does not
hold after this operation of the hook. -/
theorem c1_counterexample :
    c1ops.all validOp = true
    ∧ (applyOps c1ops initialState).relayerWallet.isSome = true
    ∧ (applyOps c1ops initialState).provider.isSome = true
    ∧ credNonEmpty (applyOps c1ops initialState) = true
    ∧ (applyOps c1ops initialState).isConfigured = false
    ∧ ¬ configuredIff (applyOps c1ops initialState) := by
  refine ⟨by decide, by decide, by decide, by decide, by decide, ?_⟩
  unfold configuredIff
  decide

/-- C1 amended: after every sequence of operations of the hook, if
isConfigured is true then the relayer account, the connection and a
non-empty current credential are all present; the converse direction of
the claimed iff is not maintained, because the derivation-error branch
of setUserCredential commits a non-empty credential while leaving
isConfigured at its previous value. -/
theorem c1_amended (ops : List Op) (hv : ops.all validOp = true) :
    configuredSound (applyOps ops initialState) = true :=
  configuredSound_run ops initialState hv (by decide)

theorem c1_amended_witness :
    ([Op.updateUserKey "k"].all validOp = true)
    ∧ configuredSound (applyOps [Op.updateUserKey "k"] initialState) = true :=
  ⟨by decide, c1_amended [Op.updateUserKey "k"] (by decide)⟩

/-- The operation sequence exhibiting the C2 violation: startup
succeeds, a user key is set (the success commit also issues the
asynchronous balance query for the new wallet), the user is cleared
with an empty key, and only then does the pending balance query resolve
and commit. -/
def c2ops : List Op :=
  [Op.initRun (some "relayerkey") (some "rpcurl") (Except.ok (56, "1.0")),
   Op.updateUserKey "userkey",
   Op.updateUserKey "",
   Op.userBalResolved "2.0"]

/-- C2 (code bug): the asynchronous user-balance merge of source lines
246-249 commits userBalance into the current state with no guard on
userWallet, so when the balance query issued for a previous key
resolves after the user was cleared, the committed state has
userBalance set while userWallet and userAddress are null — the
invariant claimed by C2 and stated by the spec is violated by the code
on this trace. -/
theorem c2_bug_eval :
    c2ops.all validOp = true
    ∧ (applyOps c2ops initialState).userWallet = none
    ∧ (applyOps c2ops initialState).userAddress = none
    ∧ (applyOps c2ops initialState).userBalance = some "2.0" := by
  decide

/-- C7: every failing execution of the startup routine records only the
error into the state. Missing or empty RPC URL or relayer credential —
in any combination — commits the fixed configuration message whatever
the RPC outcome would have been, and a thrown connection, derivation or
query commits the thrown message; in both cases every other field keeps
its prior committed value, so no connection is established and prior
good state is not corrupted. -/
theorem c7_initFailureFrame (s : WState) (msg rk url : String)
    (hrk : (rk == "") = false) (hurl : (url == "") = false) :
    (∀ (cfgUrl : Option String) (result : Except String (Nat × String)),
        initProvider none cfgUrl result s = { s with error := some configErrorMsg })
    ∧ (∀ (cfgKey : Option String) (result : Except String (Nat × String)),
        initProvider cfgKey none result s = { s with error := some configErrorMsg })
    ∧ (∀ result : Except String (Nat × String),
        initProvider (some "") (some url) result s
          = { s with error := some configErrorMsg })
    ∧ (∀ result : Except String (Nat × String),
        initProvider (some rk) (some "") result s
          = { s with error := some configErrorMsg })
    ∧ initProvider (some rk) (some url) (Except.error msg) s
        = { s with error := some msg } := by
  refine ⟨?_, ?_, ?_, ?_, ?_⟩
  · intro cfgUrl result
    unfold initProvider
    simp [jsOrStr]
  · intro cfgKey result
    unfold initProvider
    cases cfgKey with
    | none => simp [jsOrStr]
    | some k => simp [jsOrStr]
  · intro result
    unfold initProvider
    simp [jsOrStr]
  · intro result
    unfold initProvider
    simp [jsOrStr, hrk]
  · unfold initProvider
    simp [jsOrStr, hrk, hurl]

theorem c7_initFailureFrame_witness :
    ((("rk" : String) == "") = false ∧ (("u" : String) == "") = false)
    ∧ initProvider (some "rk") (some "u") (Except.error "boom") initialState
        = { initialState with error := some "boom" } :=
  ⟨⟨by decide, by decide⟩,
    (c7_initFailureFrame initialState "boom" "rk" "u" (by decide) (by decide)).2.2.2.2⟩

/-- C9: with an empty or blank input, setUserCredential commits the
cleared credential, user wallet, address, balance and isConfigured in
one functional update, for every state — whether or not a connection
exists — and running it twice in a row yields the same cleared state
both times. -/
theorem c9_clear_idem (s : WState) (key : String) (hb : isBlank key = true) :
    updateUserPrivateKey key s = clearUserCommit s
    ∧ (clearUserCommit s).currentUserPrivateKey = some ""
    ∧ (clearUserCommit s).userWallet = none
    ∧ (clearUserCommit s).userAddress = none
    ∧ (clearUserCommit s).userBalance = none
    ∧ (clearUserCommit s).isConfigured = false
    ∧ updateUserPrivateKey key (updateUserPrivateKey key s)
        = updateUserPrivateKey key s := by
  have h1 : updateUserPrivateKey key s = clearUserCommit s := by
    unfold updateUserPrivateKey updateUserPrivateKeyStep
    rw [if_pos hb]
  have h2 : updateUserPrivateKey key (clearUserCommit s) = clearUserCommit s := by
    unfold updateUserPrivateKey updateUserPrivateKeyStep
    rw [if_pos hb]
    rfl
  refine ⟨h1, rfl, rfl, rfl, rfl, rfl, ?_⟩
  rw [h1, h2]

theorem c9_clear_idem_witness :
    isBlank "" = true
    ∧ updateUserPrivateKey "" initialState = clearUserCommit initialState :=
  ⟨by decide, (c9_clear_idem initialState "" (by decide)).1⟩

/-- C10: for a non-blank key with a live connection, the synchronous
commit of setUserCredential installs the new wallet but leaves
userBalance exactly at its prior committed value; the balance changes
only if the separately issued asynchronous query later resolves and
commits through userBalanceCommit. -/
theorem c10_balance_frame (s : WState) (key : String) (p : Provider) (b : String)
    (hb : isBlank key = false) (hp : s.provider = some p) :
    (updateUserPrivateKey key s).userBalance = s.userBalance
    ∧ (updateUserPrivateKey key s).userWallet = some (mkWallet key)
    ∧ (updateUserPrivateKey key s).currentUserPrivateKey = some key
    ∧ (userBalanceCommit b (updateUserPrivateKey key s)).userBalance = some b := by
  unfold updateUserPrivateKey updateUserPrivateKeyStep
  rw [if_neg (by rw [hb]; exact Bool.false_ne_true), hp]
  exact ⟨rfl, rfl, rfl, rfl⟩

/-- A state with a live provider, used by several witnesses. -/
def wsProvider : WState :=
  { initialState with provider := some { rpcUrl := "u" } }

theorem c10_balance_frame_witness :
    (isBlank "k" = false ∧ wsProvider.provider = some { rpcUrl := "u" })
    ∧ (updateUserPrivateKey "k" wsProvider).userBalance = wsProvider.userBalance
    ∧ (updateUserPrivateKey "k" wsProvider).userWallet = some (mkWallet "k") :=
  ⟨⟨by decide, rfl⟩,
    (c10_balance_frame wsProvider "k" { rpcUrl := "u" } "3.0" (by decide) rfl).1,
    (c10_balance_frame wsProvider "k" { rpcUrl := "u" } "3.0" (by decide) rfl).2.1⟩

/-- C8: for a non-blank key, every run of setUserCredential that fires
while no connection exists returns the state untouched and schedules the
very same call again after the fixed 100 ms delay — so the resubmission
chain continues without any bound and without the caller re-invoking the
operation — and the first run that observes a connection commits the
derived user wallet synchronously and schedules nothing further. The
stream sigma gives the committed state seen by the i-th run; the runs up
to N observe no provider and the run at N observes one. -/
theorem c8_retry (key : String) (sigma : Nat → WState) (N : Nat) (p : Provider)
    (hkey : isBlank key = false)
    (hwait : ∀ i, i < N → (sigma i).provider = none)
    (hp : (sigma N).provider = some p) :
    (∀ i, i < N →
      updateUserPrivateKeyStep key (sigma i) = (sigma i, some (100, key)))
    ∧ updateUserPrivateKeyStep key (sigma N)
        = (setUserKeyCommit key (sigma N), none)
    ∧ (setUserKeyCommit key (sigma N)).userWallet = some (mkWallet key)
    ∧ (setUserKeyCommit key (sigma N)).currentUserPrivateKey = some key := by
  have hnotb : ¬ isBlank key = true := by rw [hkey]; exact Bool.false_ne_true
  refine ⟨?_, ?_, rfl, rfl⟩
  · intro i hi
    unfold updateUserPrivateKeyStep
    rw [if_neg hnotb, hwait i hi]
  · unfold updateUserPrivateKeyStep
    rw [if_neg hnotb, hp]

/-- State stream for the C8 witness: the connection appears at step 2. -/
def c8sigma : Nat → WState := fun i => if i < 2 then initialState else wsProvider

theorem c8_retry_witness :
    (isBlank "k" = false
      ∧ (∀ i, i < 2 → (c8sigma i).provider = none)
      ∧ (c8sigma 2).provider = some { rpcUrl := "u" })
    ∧ (∀ i, i < 2 →
        updateUserPrivateKeyStep "k" (c8sigma i) = (c8sigma i, some (100, "k")))
    ∧ updateUserPrivateKeyStep "k" (c8sigma 2)
        = (setUserKeyCommit "k" (c8sigma 2), none) :=
  ⟨⟨by decide, by decide, rfl⟩,
    (c8_retry "k" c8sigma 2 { rpcUrl := "u" } (by decide) (by decide) rfl).1,
    (c8_retry "k" c8sigma 2 { rpcUrl := "u" } (by decide) (by decide) rfl).2.1⟩

/-- A state with a live provider and both wallets present, used by the
refresh theorems. -/
def wsBoth : WState :=
  { initialState with
      provider := some (Provider.mk "u"),
      userWallet := some (mkWallet "uk"),
      relayerWallet := some (mkWallet "rk") }

/-- C4 counterexample: with a connection and both wallets present, both
per-role queries are issued; the user query fails while the relayer
query settles successfully with 5.0. The code joins the two with
Promise.all, whose rejection skips the merge entirely, so the settled
relayer result is never committed: one role is not committed
independently of the outcome of the other role, refuting the claim. -/
theorem c4_counterexample :
    wsBoth.provider.isSome = true
    ∧ wsBoth.userWallet.isSome = true
    ∧ wsBoth.relayerWallet.isSome = true
    ∧ refreshBalancesRun (Except.error "down") (Except.ok "5.0") wsBoth wsBoth
        = wsBoth
    ∧ wsBoth.relayerBalance ≠ some "5.0" := by
  decide

/-- C4 amended: when every per-role query issued by refresh succeeds,
the settled results are merged into the current state at completion
time, tagged by role so that each updates only its own balance field —
in particular a refresh that queried only the relayer leaves userBalance
untouched, and a later merge commit applied on top of an earlier one
preserves the last-committed balance of the other role, so concurrent
refreshes lose no update. However the two roles are not independent on
failure: if any issued query fails, the Promise.all join rejects and
that refresh commits the result of neither role. -/
theorem c4_refresh_amended (sAtCall c : WState) (p : Provider)
    (bu br b2 e : String) (hp : sAtCall.provider = some p) :
    (sAtCall.userWallet.isSome = true → sAtCall.relayerWallet.isSome = true →
      refreshBalancesRun (Except.ok bu) (Except.ok br) sAtCall c
          = { c with userBalance := some bu, relayerBalance := some br }
        ∧ refreshBalancesRun (Except.error e) (Except.ok br) sAtCall c = c
        ∧ refreshBalancesRun (Except.ok bu) (Except.error e) sAtCall c = c)
    ∧ (sAtCall.userWallet = none → sAtCall.relayerWallet.isSome = true →
        refreshBalancesRun (Except.ok bu) (Except.ok br) sAtCall c
          = { c with relayerBalance := some br }
        ∧ refreshBalancesRun (Except.ok bu) (Except.error e) sAtCall c = c)
    ∧ applyRefreshCommit (none, some b2) (applyRefreshCommit (some bu, some br) c)
        = { c with userBalance := some bu, relayerBalance := some b2 } := by
  refine ⟨?_, ?_, rfl⟩
  · intro hu hr
    unfold refreshBalancesRun
    rw [hp, hu, hr]
    exact ⟨rfl, rfl, rfl⟩
  · intro hu hr
    unfold refreshBalancesRun
    rw [hp, hu, hr]
    exact ⟨rfl, rfl⟩

theorem c4_refresh_amended_witness :
    (wsBoth.provider = some { rpcUrl := "u" }
      ∧ wsBoth.userWallet.isSome = true ∧ wsBoth.relayerWallet.isSome = true)
    ∧ refreshBalancesRun (Except.ok "1.5") (Except.ok "5.0") wsBoth wsBoth
        = { wsBoth with userBalance := some "1.5", relayerBalance := some "5.0" }
    ∧ refreshBalancesRun (Except.error "down") (Except.ok "5.0") wsBoth wsBoth
        = wsBoth :=
  ⟨⟨rfl, by decide, by decide⟩,
    ((c4_refresh_amended wsBoth wsBoth { rpcUrl := "u" } "1.5" "5.0" "7.0" "down"
        rfl).1 (by decide) (by decide)).1,
    ((c4_refresh_amended wsBoth wsBoth { rpcUrl := "u" } "1.5" "5.0" "7.0" "down"
        rfl).1 (by decide) (by decide)).2.1⟩

end EnvWallet
